import Mathlib

/-!
Verification development for the browser-side chat client
(`src/apps/web/static/js/chat.js` of the hoocall repository).

The script is event-handler glue over `fetch` and DOM mutation.  We embed
it shallowly:

* The DOM state the script reads and writes becomes an explicit
  `ClientState` record (transcript bubbles, text input value,
  conversation-id input value, the RAG checkbox, the rendered
  conversation list, the recorder globals `mediaRecorder` / `chunks` /
  `recording`, the mic-button label and the transcript scroll position).
* Each event handler becomes a function `ClientState → ClientState × List Effect`;
  an `Effect` records an observable outward action (a network request, an
  alert, a recorder stop).  A handler containing an `await fetch` is split
  at the suspension point into a pre-response phase and a response phase,
  so temporal claims ("X happens before the response arrives") become
  facts about the pre-response phase.
* JavaScript value coercions that the code relies on are modelled
  explicitly: `x || d` on strings (`jsOr`), truthiness of an optional
  string (`jsTruthyOpt`), `parseInt(s, 10)` returning `NaN` as `none`
  (`parseIntJS`), and `JSON.stringify` / `FormData` stringification of a
  possibly-`NaN` number (`jsonIntOrNull`, `numToFormString`).
* DOM scroll metrics are abstracted: `scrollHeight` of the transcript is
  measured as its number of bubbles, so `scrollTop = messages.length`
  states "scrolled to the latest message".
* Absent JSON fields are `none`; a present field (including the empty
  string) is `some _`.
-/

/-- One rendered transcript entry (`addMessage` creates a `div.msg`):
role class, text content, and the optional audio link appended beneath. -/
structure Bubble where
  role : String
  text : String
  audio : Option String
deriving Repr, DecidableEq

/-- A conversation record returned by `/api/conversations`. -/
structure Conversation where
  id : Int
  title : String
  created_at : String
deriving Repr, DecidableEq

/-- A message record returned by `/api/history/{id}`. -/
structure Message where
  role : String
  content : Option String
  audio_path : Option String
deriving Repr, DecidableEq

/-- A rendered `li` in the conversation list: its visible label and the
conversation id its click handler captured. -/
structure ConvLi where
  label : String
  onclickId : Int
deriving Repr, DecidableEq

/-- `MediaRecorder.state`. -/
inductive RecState where
  | inactive
  | recording
  | paused
deriving Repr, DecidableEq

/-- The model of a `MediaRecorder` object: only its state is observable
to this script. -/
structure Recorder where
  state : RecState
deriving Repr, DecidableEq

/-- A captured audio chunk (`e.data` in `ondataavailable`), as bytes. -/
abbrev Chunk := List Nat

/-- `new Blob(chunks, \x7b type: 'audio/webm' \x7d)`: the concatenated data
plus the MIME type. -/
structure Blob where
  data : List Nat
  type : String
deriving Repr, DecidableEq

/-- The JSON body posted to `/api/chat`; `conversation_id` is `none` when
`parseInt` produced `NaN`. -/
structure ChatBody where
  conversation_id : Option Int
  text : String
  use_rag : Bool
deriving Repr, DecidableEq

/-- The multipart form posted to `/api/say`. -/
structure SayForm where
  audio : Blob
  filename : String
  conversation_id : String
  use_rag : String
deriving Repr, DecidableEq

/-- The JSON response of `/api/chat`. -/
structure ChatResp where
  reply : Option String
deriving Repr, DecidableEq

/-- The JSON response of `/api/say`. -/
structure SayResp where
  transcript : Option String
  audio_url : Option String
  reply : Option String
deriving Repr, DecidableEq

/-- An observable outward action of a handler. -/
inductive Effect where
  | fetchConvs
  | fetchHistory (id : Int)
  | chatRequest (body : ChatBody)
  | sayRequest (fd : SayForm)
  | getUserMedia
  | recorderStop
  | alert (msg : String)
deriving Repr, DecidableEq

/-- The DOM and module-global state the script manipulates. -/
structure ClientState where
  messages : List Bubble
  textInput : String
  convIdInput : String
  useRag : Bool
  conversationsUl : List ConvLi
  mediaRecorder : Option Recorder
  chunks : List Chunk
  recording : Bool
  micLabel : String
  scrollTop : Nat
deriving Repr, DecidableEq

/-- JavaScript `x || d` for an optional string `x`: the default is taken
when the field is absent or the empty string (both are falsy). -/
def jsOr : Option String → String → String
  | some s, d => if s = "" then d else s
  | none, d => d

/-- Truthiness filter for an optional string argument (`if (audioUrl)`):
absent and empty are falsy. -/
def jsTruthyOpt : Option String → Option String
  | some s => if s = "" then none else some s
  | none => none

/-- JavaScript `String.prototype.trim`: drop leading and trailing
whitespace (list-based so that it evaluates structurally). -/
def trimJS (s : String) : String :=
  String.mk (((s.toList.dropWhile Char.isWhitespace).reverse.dropWhile Char.isWhitespace).reverse)

/-- Decimal value of a digit list (most significant first). -/
def digitsVal (ds : List Char) : Int :=
  ds.foldl (fun a c => a * 10 + (Int.ofNat (c.toNat - '0'.toNat))) 0

/-- JavaScript `parseInt(s, 10)`: trim, optional sign, longest decimal
digit prefix; `none` models `NaN` (no digits). -/
def parseIntJS (s : String) : Option Int :=
  let t := trimJS s
  let (sign, rest) :=
    match t.toList with
    | '-' :: cs => ((-1 : Int), cs)
    | '+' :: cs => ((1 : Int), cs)
    | cs => ((1 : Int), cs)
  let digits := rest.takeWhile Char.isDigit
  if digits = [] then none
  else some (sign * digitsVal digits)

/-- `JSON.stringify` of a number that may be `NaN`: `NaN` serializes as
`null`. -/
def jsonIntOrNull : Option Int → String
  | none => "null"
  | some n => toString n

/-- `FormData.append` stringification of a number that may be `NaN`. -/
def numToFormString : Option Int → String
  | none => "NaN"
  | some n => toString n

/-- Minimal `JSON.stringify` string escaping for the characters this
client can produce. -/
def escapeJsonChar (c : Char) : String :=
  if c = '"' then "\\\""
  else if c = '\\' then "\\\\"
  else if c = '\n' then "\\n"
  else if c = '\r' then "\\r"
  else if c = '\t' then "\\t"
  else String.singleton c

/-- `JSON.stringify` escaping of a string body field. -/
def escapeJson (s : String) : String :=
  String.join (s.toList.map escapeJsonChar)

/-- `JSON.stringify(\x7b conversation_id, text, use_rag \x7d)` as the chat
handler builds it; a `NaN` conversation id serializes as `null`. -/
def stringifyChatBody (b : ChatBody) : String :=
  "\x7b\"conversation_id\":" ++ jsonIntOrNull b.conversation_id ++
  ",\"text\":\"" ++ escapeJson b.text ++
  "\",\"use_rag\":" ++ (if b.use_rag then "true" else "false") ++ "\x7d"

/-- `addMessage(role, text, audioUrl)` (chat.js lines 33-45): appends one
bubble whose text is `text || ''` and whose audio link exists only when
`audioUrl` is truthy. -/
def addMessage (role : String) (text : Option String) (audioUrl : Option String)
    (msgs : List Bubble) : List Bubble :=
  msgs ++ [{ role := role, text := text.getD "", audio := jsTruthyOpt audioUrl }]

/-- The chat-form submit handler up to its `await fetch` (chat.js lines
47-58): trim, guard on empty, optimistic user bubble, parse the
conversation id, clear the input, issue the POST. -/
def chatSubmitPhase1 (s : ClientState) : ClientState × List Effect :=
  let text := trimJS s.textInput
  if text = "" then (s, [])
  else
    let s1 := { s with messages := addMessage "user" (some text) none s.messages }
    let conversation_id := parseIntJS s.convIdInput
    let s2 := { s1 with textInput := "" }
    (s2, [Effect.chatRequest { conversation_id := conversation_id, text := text, use_rag := s.useRag }])

/-- The chat-form submit handler after its response arrives (chat.js
lines 59-61): assistant bubble from `data.reply || '(no reply)'`, then
scroll to the latest message. -/
def chatSubmitPhase2 (data : ChatResp) (s : ClientState) : ClientState :=
  let s1 := { s with messages := addMessage "assistant" (some (jsOr data.reply "(no reply)")) none s.messages }
  { s1 with scrollTop := s1.messages.length }

/-- The label of a conversation list entry (chat.js line 15):
title, em-dash separator, localized timestamp.  Locale rendering of
`new Date(...).toLocaleString()` is environment-dependent, so it is an
explicit parameter `localize`. -/
def convLabel (localize : String → String) (c : Conversation) : String :=
  c.title ++ " — " ++ localize c.created_at

/-- The response phase of `fetchConversations` (chat.js lines 11-22):
clear the list, then append one `li` per record, each carrying its
conversation id for the click handler. -/
def fetchConversationsRender (localize : String → String) (data : List Conversation)
    (s : ClientState) : ClientState :=
  let s1 := { s with conversationsUl := [] }
  data.foldl (fun st c => { st with conversationsUl := st.conversationsUl ++ [{ label := convLabel localize c, onclickId := c.id }] }) s1

/-- A conversation entry's click handler (chat.js lines 17-20): store the
id in the conversation-id input (DOM stringifies the number) and call
`loadHistory(c.id)`, whose first action is the history fetch. -/
def convClick (id : Int) (s : ClientState) : ClientState × List Effect :=
  ({ s with convIdInput := toString id }, [Effect.fetchHistory id])

/-- The response phase of `loadHistory` (chat.js lines 27-30): clear the
transcript, render each message in order via `addMessage`, scroll to the
latest message. -/
def loadHistoryRender (data : List Message) (s : ClientState) : ClientState :=
  let s1 := { s with messages := [] }
  let s2 := data.foldl (fun st m =>
    { st with messages := addMessage m.role m.content m.audio_path st.messages }) s1
  { s2 with scrollTop := s2.messages.length }

/-- The mic button's `mousedown` handler (chat.js lines 68-91).
`mediaDevicesAvail` models whether `navigator.mediaDevices` exists: when
absent the handler alerts and returns before any capture; otherwise it
acquires the microphone, creates a fresh recorder, resets the chunk
accumulator, starts recording and updates the button label. -/
def micMousedown (mediaDevicesAvail : Bool) (s : ClientState) : ClientState × List Effect :=
  if ¬ mediaDevicesAvail then (s, [Effect.alert "No media devices API"])
  else
    let r : Recorder := { state := RecState.inactive }
    let r1 : Recorder := { r with state := RecState.recording }
    ({ s with mediaRecorder := some r1, chunks := [], recording := true,
              micLabel := "⏺️ Recording..." },
     [Effect.getUserMedia])

/-- The recorder's `ondataavailable` handler (chat.js line 73): push the
chunk onto the accumulator. -/
def onDataAvailable (d : Chunk) (s : ClientState) : ClientState :=
  { s with chunks := s.chunks ++ [d] }

/-- The mic button's `mouseup`/`mouseleave` handler (chat.js lines
93-101): stop only when the recording flag is set, a recorder exists and
its state is not `inactive`; stopping drives the recorder inactive,
clears the flag, restores the label and fires `onstop`. -/
def micRelease (s : ClientState) : ClientState × List Effect :=
  match s.mediaRecorder with
  | some r =>
      if s.recording ∧ r.state ≠ RecState.inactive then
        ({ s with mediaRecorder := some { r with state := RecState.inactive },
                  recording := false, micLabel := "🎤" },
         [Effect.recorderStop])
      else (s, [])
  | none => (s, [])

/-- The recorder's `onstop` handler up to its `await fetch` (chat.js
lines 74-80): assemble the blob from the accumulated chunks and post the
multipart form to `/api/say`. -/
def onStopPhase1 (s : ClientState) : ClientState × List Effect :=
  let blob : Blob := { data := s.chunks.flatten, type := "audio/webm" }
  let fd : SayForm :=
    { audio := blob, filename := "speech.webm",
      conversation_id := numToFormString (parseIntJS s.convIdInput),
      use_rag := if s.useRag then "true" else "false" }
  (s, [Effect.sayRequest fd])

/-- The recorder's `onstop` handler after its response arrives (chat.js
lines 81-86): user bubble from `data.transcript || '(no speech)'` with
the audio link, assistant bubble from `data.reply || '(no reply)'`,
scroll to the latest message. -/
def onStopPhase2 (data : SayResp) (s : ClientState) : ClientState :=
  let m1 := addMessage "user" (some (jsOr data.transcript "(no speech)")) data.audio_url s.messages
  let m2 := addMessage "assistant" (some (jsOr data.reply "(no reply)")) none m1
  { s with messages := m2, scrollTop := m2.length }

/-- One complete press-then-release recording cycle on a platform with
media capture: `mousedown`, the chunk deliveries, the release handler,
and — exactly when the release actually stopped the recorder — the
`onstop` upload and its response rendering. -/
def recordCycle (s0 : ClientState) (chunksIn : List Chunk) (resp : SayResp) :
    ClientState × List Effect :=
  let p1 := micMousedown true s0
  let s2 := chunksIn.foldl (fun s d => onDataAvailable d s) p1.1
  let p3 := micRelease s2
  if Effect.recorderStop ∈ p3.2 then
    let p4 := onStopPhase1 p3.1
    (onStopPhase2 resp p4.1, p1.2 ++ p3.2 ++ p4.2)
  else (p3.1, p1.2 ++ p3.2)

/-- Whether an effect is the `/api/say` upload. -/
def isSayRequest : Effect → Bool
  | Effect.sayRequest _ => true
  | _ => false

/-- A base client state for concrete instantiations. -/
def baseState : ClientState :=
  { messages := [], textInput := "", convIdInput := "1", useRag := false,
    conversationsUl := [], mediaRecorder := none, chunks := [], recording := false,
    micLabel := "🎤", scrollTop := 0 }

example : parseIntJS "" = none := by decide
example : parseIntJS "12" = some 12 := by decide
example : parseIntJS "-4x" = some (-4) := by decide
example : trimJS "  " = "" := by decide
example : trimJS " hi " = "hi" := by decide
example : jsOr (some "") "(no reply)" = "(no reply)" := by decide

lemma foldOnDataAvailable (cs : List Chunk) (s : ClientState) :
    cs.foldl (fun s d => onDataAvailable d s) s = { s with chunks := s.chunks ++ cs } := by
  induction cs generalizing s with
  | nil => simp
  | cons c cs ih =>
      rw [List.foldl_cons, ih]
      simp [onDataAvailable, List.append_assoc]

lemma foldConvAppend (localize : String → String) (data : List Conversation)
    (st : ClientState) :
    data.foldl (fun st c => { st with conversationsUl := st.conversationsUl ++ [{ label := convLabel localize c, onclickId := c.id }] }) st
    = { st with conversationsUl :=
          st.conversationsUl ++ data.map (fun c => { label := convLabel localize c, onclickId := c.id }) } := by
  induction data generalizing st with
  | nil => simp
  | cons c cs ih => simp [List.foldl_cons, ih]

lemma foldHistoryAppend (data : List Message) (st : ClientState) :
    data.foldl (fun st m =>
      { st with messages := addMessage m.role m.content m.audio_path st.messages }) st
    = { st with messages :=
          st.messages ++ data.map (fun m =>
            { role := m.role, text := m.content.getD "", audio := jsTruthyOpt m.audio_path }) } := by
  induction data generalizing st with
  | nil => simp
  | cons m ms ih =>
      rw [List.foldl_cons, ih]
      simp [addMessage, List.append_assoc]

/-- Claim C1 (amended): for every chat-form submission whose input is
non-empty after trimming, the handler first appends a user bubble whose
text is exactly the trimmed input, and after the server response appends
an assistant bubble whose text is the reply field when that field is
present and non-empty, and the literal placeholder "(no reply)" when the
reply field is absent or empty. -/
theorem chat_submit_user_then_assistant (s : ClientState) (resp : ChatResp)
    (h : trimJS s.textInput ≠ "") :
    (chatSubmitPhase1 s).1.messages
      = s.messages ++ [{ role := "user", text := trimJS s.textInput, audio := none }] ∧
    (chatSubmitPhase2 resp (chatSubmitPhase1 s).1).messages
      = (chatSubmitPhase1 s).1.messages
        ++ [{ role := "assistant",
              text := match resp.reply with
                      | some r => if r = "" then "(no reply)" else r
                      | none => "(no reply)",
              audio := none }] := by
  obtain ⟨r⟩ := resp
  constructor
  · simp [chatSubmitPhase1, addMessage, jsTruthyOpt, h]
  · cases r <;> simp [chatSubmitPhase1, chatSubmitPhase2, addMessage, jsOr, jsTruthyOpt, h]

/-- Witness for C1 at input " hi " with reply "yo". -/
theorem chat_submit_user_then_assistant_witness :
    (chatSubmitPhase1 { baseState with textInput := " hi " }).1.messages
      = ({ baseState with textInput := " hi " } : ClientState).messages
        ++ [{ role := "user", text := trimJS " hi ", audio := none }] ∧
    (chatSubmitPhase2 { reply := some "yo" }
        (chatSubmitPhase1 { baseState with textInput := " hi " }).1).messages
      = (chatSubmitPhase1 { baseState with textInput := " hi " }).1.messages
        ++ [{ role := "assistant",
              text := match (some "yo" : Option String) with
                      | some r => if r = "" then "(no reply)" else r
                      | none => "(no reply)",
              audio := none }] :=
  chat_submit_user_then_assistant { baseState with textInput := " hi " } { reply := some "yo" }
    (by decide)

/-- Counterexample to C1 as stated: when the reply field is present but
empty, the assistant bubble shows the placeholder "(no reply)", not the
reply field's value "". -/
theorem chat_submit_empty_reply_counterexample :
    (chatSubmitPhase2 { reply := some "" }
        (chatSubmitPhase1 { baseState with textInput := "hi" }).1).messages.map Bubble.text
      = ["hi", "(no reply)"] ∧
    (ChatResp.mk (some "")).reply = some "" ∧ ("(no reply)" : String) ≠ "" := by
  refine ⟨?_, rfl, by decide⟩
  decide

/-- Claim C3: submitting the chat form with empty or whitespace-only text
is a silent no-op: the state is unchanged and no network request is
issued. -/
theorem empty_submit_is_noop (s : ClientState) (h : trimJS s.textInput = "") :
    chatSubmitPhase1 s = (s, []) := by
  simp [chatSubmitPhase1, h]

/-- Witness for C3 at whitespace-only input "   ". -/
theorem empty_submit_is_noop_witness :
    chatSubmitPhase1 { baseState with textInput := "   " }
      = ({ baseState with textInput := "   " }, []) :=
  empty_submit_is_noop { baseState with textInput := "   " } (by decide)

/-- Claim C8: for every submission with non-empty trimmed text, the text
input is already cleared in the pre-response phase — the phase that
completes before the chat fetch is dispatched and hence before its
response can arrive — at which point the single chat request is issued;
the response phase leaves the input cleared. -/
theorem input_cleared_before_chat_response (s : ClientState) (resp : ChatResp)
    (h : trimJS s.textInput ≠ "") :
    (chatSubmitPhase1 s).1.textInput = "" ∧
    (∃ b, (chatSubmitPhase1 s).2 = [Effect.chatRequest b]) ∧
    (chatSubmitPhase2 resp (chatSubmitPhase1 s).1).textInput = "" := by
  refine ⟨?_, ?_, ?_⟩
  · simp [chatSubmitPhase1, h]
  · exact ⟨{ conversation_id := parseIntJS s.convIdInput, text := trimJS s.textInput,
             use_rag := s.useRag }, by simp [chatSubmitPhase1, h]⟩
  · simp [chatSubmitPhase1, chatSubmitPhase2, h]

/-- Witness for C8 at input "hello". -/
theorem input_cleared_before_chat_response_witness :
    (chatSubmitPhase1 { baseState with textInput := "hello" }).1.textInput = "" ∧
    (∃ b, (chatSubmitPhase1 { baseState with textInput := "hello" }).2
            = [Effect.chatRequest b]) ∧
    (chatSubmitPhase2 { reply := none }
        (chatSubmitPhase1 { baseState with textInput := "hello" }).1).textInput = "" :=
  input_cleared_before_chat_response { baseState with textInput := "hello" } { reply := none }
    (by decide)

/-- Claim C9: when the conversation-id input does not parse as an integer
(`parseInt` yields NaN, modelled as `none`), a submission with non-empty
text still issues the chat request, and the body's conversation_id
serializes as JSON null; the submission is not rejected client-side. -/
theorem nan_conversation_id_sends_null (s : ClientState)
    (h1 : trimJS s.textInput ≠ "") (h2 : parseIntJS s.convIdInput = none) :
    (chatSubmitPhase1 s).2
      = [Effect.chatRequest
          { conversation_id := none, text := trimJS s.textInput, use_rag := s.useRag }] ∧
    (∃ rest : String,
      stringifyChatBody
          { conversation_id := none, text := trimJS s.textInput, use_rag := s.useRag }
        = "\x7b\"conversation_id\":null" ++ rest) := by
  constructor
  · simp [chatSubmitPhase1, h1, h2]
  · refine ⟨",\"text\":\"" ++ escapeJson (trimJS s.textInput)
            ++ "\",\"use_rag\":" ++ (if s.useRag then "true" else "false") ++ "\x7d", ?_⟩
    have hlit : ("\x7b\"conversation_id\":null" : String)
        = "\x7b\"conversation_id\":" ++ "null" := by decide
    simp only [stringifyChatBody, jsonIntOrNull, hlit, String.append_assoc]

/-- Witness for C9 at text "hi" and empty conversation-id input. -/
theorem nan_conversation_id_sends_null_witness :
    (chatSubmitPhase1 { baseState with textInput := "hi", convIdInput := "" }).2
      = [Effect.chatRequest
          { conversation_id := none, text := trimJS "hi", use_rag := false }] ∧
    (∃ rest : String,
      stringifyChatBody { conversation_id := none, text := trimJS "hi", use_rag := false }
        = "\x7b\"conversation_id\":null" ++ rest) :=
  nan_conversation_id_sends_null { baseState with textInput := "hi", convIdInput := "" }
    (by decide) (by decide)

/-- Claim C10: a submission with empty or whitespace-only text leaves the
text input's content unchanged — the clearing happens only after the
non-empty guard passes. -/
theorem whitespace_submit_preserves_input (s : ClientState)
    (h : trimJS s.textInput = "") :
    (chatSubmitPhase1 s).1.textInput = s.textInput := by
  simp [chatSubmitPhase1, h]

/-- Witness for C10 at whitespace-only input " ". -/
theorem whitespace_submit_preserves_input_witness :
    (chatSubmitPhase1 { baseState with textInput := " " }).1.textInput = " " :=
  whitespace_submit_preserves_input { baseState with textInput := " " } (by decide)

/-- Claim C2 (amended): a complete press-then-release recording cycle
issues exactly one upload to the speech endpoint — carrying the recorded
audio under filename speech.webm, the selected conversation id, and the
retrieval-augmentation flag as the string "true"/"false" — and on
response renders a user bubble whose text is the transcript when present
and non-empty (else the placeholder "(no speech)"), carrying the returned
audio reference when present and non-empty, followed by an assistant
bubble with the reply when present and non-empty (else "(no reply)"). -/
theorem record_cycle_upload_and_render (s0 : ClientState) (cs : List Chunk)
    (resp : SayResp) :
    (recordCycle s0 cs resp).2.countP isSayRequest = 1 ∧
    (recordCycle s0 cs resp).2
      = [Effect.getUserMedia, Effect.recorderStop,
         Effect.sayRequest
           { audio := { data := cs.flatten, type := "audio/webm" },
             filename := "speech.webm",
             conversation_id := numToFormString (parseIntJS s0.convIdInput),
             use_rag := if s0.useRag then "true" else "false" }] ∧
    (recordCycle s0 cs resp).1.messages
      = s0.messages
        ++ [{ role := "user",
              text := match resp.transcript with
                      | some t => if t = "" then "(no speech)" else t
                      | none => "(no speech)",
              audio := match resp.audio_url with
                       | some u => if u = "" then none else some u
                       | none => none },
            { role := "assistant",
              text := match resp.reply with
                      | some r => if r = "" then "(no reply)" else r
                      | none => "(no reply)",
              audio := none }] := by
  obtain ⟨t, a, r⟩ := resp
  refine ⟨?_, ?_, ?_⟩ <;>
  · cases t <;> cases a <;> cases r <;>
      simp [recordCycle, micMousedown, foldOnDataAvailable, micRelease,
            onStopPhase1, onStopPhase2, addMessage, jsOr, jsTruthyOpt,
            isSayRequest, List.countP_cons, List.countP_nil]

/-- Counterexample to C2 as stated: when the transcript field is present
but empty, the user bubble shows the placeholder "(no speech)", not the
transcript's value "". -/
theorem record_cycle_empty_transcript_counterexample :
    ((recordCycle baseState [[1, 2]]
        { transcript := some "", audio_url := some "a.mp3", reply := some "ok" }).1.messages.map
          Bubble.text)
      = ["(no speech)", "ok"] ∧
    (SayResp.mk (some "") (some "a.mp3") (some "ok")).transcript = some "" ∧
    ("(no speech)" : String) ≠ "" := by
  refine ⟨by decide, rfl, by decide⟩

/-- Claim C4: rendering a conversations response clears the list and
produces exactly one entry per conversation, in response order, each
labelled with the title, the separator " — ", and the localized
created_at timestamp. -/
theorem conversations_render_list (localize : String → String)
    (data : List Conversation) (s : ClientState) :
    (fetchConversationsRender localize data s).conversationsUl
      = data.map (fun c =>
          { label := c.title ++ " — " ++ localize c.created_at, onclickId := c.id }) := by
  unfold fetchConversationsRender
  rw [foldConvAppend]
  simp [convLabel]

/-- Claim C5: clicking a conversation entry stores that conversation's id
in the selected-id input and issues exactly one history fetch for that
id; the history loader clears the transcript, renders each returned
message in order, and scrolls to the latest message. -/
theorem conversation_click_loads_history (id : Int) (s s' : ClientState)
    (data : List Message) :
    convClick id s = ({ s with convIdInput := toString id }, [Effect.fetchHistory id]) ∧
    (loadHistoryRender data s').messages
      = data.map (fun m =>
          { role := m.role, text := m.content.getD "", audio := jsTruthyOpt m.audio_path }) ∧
    (loadHistoryRender data s').scrollTop = (loadHistoryRender data s').messages.length := by
  refine ⟨rfl, ?_, ?_⟩ <;> simp [loadHistoryRender, foldHistoryAppend]

/-- Claim C6: releasing the mic button performs a stop action only when
the recording flag is set and a recorder exists whose state is not
inactive; in every other situation the release is a complete no-op — no
stop, no upload, no state change. -/
theorem release_without_recording_is_noop (s : ClientState)
    (h : ¬ (s.recording = true ∧ ∃ r, s.mediaRecorder = some r ∧ r.state ≠ RecState.inactive)) :
    micRelease s = (s, []) := by
  cases hm : s.mediaRecorder with
  | none => simp [micRelease, hm]
  | some r =>
      have hg : ¬ (s.recording = true ∧ r.state ≠ RecState.inactive) :=
        fun hc => h ⟨hc.1, r, hm, hc.2⟩
      simp [micRelease, hm, hg]

/-- Witness for C6 at an idle state (no recorder, flag down). -/
theorem release_without_recording_is_noop_witness :
    micRelease baseState = (baseState, []) :=
  release_without_recording_is_noop baseState
    (by
      rintro ⟨h1, -⟩
      simp [baseState] at h1)

/-- Claim C7: pressing the mic button on a platform without the media
devices API raises exactly one blocking alert and does nothing else: no
microphone acquisition, no recorder creation, and the whole client state
— including the recording flag — is unchanged. -/
theorem mousedown_without_media_devices_alerts (s : ClientState) :
    micMousedown false s = (s, [Effect.alert "No media devices API"]) := by
  simp [micMousedown]
